import Mathlib

/-!
Verification development for the `chatbot-` agricultural chatbot repository.

The Python sources are shallowly embedded into Lean:

* `app.py` — the message pipeline `process_user_message`, the session
  conversation log manipulated by `chat` / `reset`.
* `db.py` — the SQLite-backed knowledge store (`find_culture_in_text`,
  `get_planting_info`, `get_soil_recommendations`) modelled relationally
  over explicit table contents, together with the seed data of
  `seed_basic_data`.
* `database.py` — the JSON-list-field decoding of
  `rechercher_culture_par_nom`.
* `nlp_processor.py` — entity extraction (`extraire_ville`,
  `extraire_culture`).

Python strings are modelled as Lean `String` (lists of characters);
machine floats used only as confidence literals are modelled as `ℚ`.
-/

namespace Chatbot

/-! ### Python string primitives

`pyLowerChar` models Python `str.lower()` on the Latin-1 range, which
covers every character occurring in the program vocabularies (ASCII plus
French accented letters). -/

def pyLowerChar (c : Char) : Char :=
  if 65 ≤ c.toNat ∧ c.toNat ≤ 90 then Char.ofNat (c.toNat + 32)
  else if 0xC0 ≤ c.toNat ∧ c.toNat ≤ 0xDE ∧ c.toNat ≠ 0xD7 then Char.ofNat (c.toNat + 32)
  else c

def pyLower (s : String) : String := ⟨s.data.map pyLowerChar⟩

def pyUpperChar (c : Char) : Char :=
  if 97 ≤ c.toNat ∧ c.toNat ≤ 122 then Char.ofNat (c.toNat - 32)
  else if 0xE0 ≤ c.toNat ∧ c.toNat ≤ 0xFE ∧ c.toNat ≠ 0xF7 then Char.ofNat (c.toNat - 32)
  else c

/-- Python `str.capitalize()`: first character upper-cased, the rest
lower-cased. -/
def pyCapitalize (s : String) : String :=
  match s.data with
  | [] => ""
  | c :: rest => ⟨pyUpperChar c :: rest.map pyLowerChar⟩

/-- The whitespace characters recognised by Python `str.strip()` /
`str.split()` (ASCII range). -/
def isSpacePy (c : Char) : Bool :=
  c = ' ' || c = '\t' || c = '\n' || c = '\x0d' || c = '\x0b' || c = '\x0c'

/-- Python `str.strip()` with no arguments. -/
def pyStrip (s : String) : String :=
  ⟨((s.data.dropWhile isSpacePy).reverse.dropWhile isSpacePy).reverse⟩

/-- Boolean list-prefix test. -/
def prefixB : List Char → List Char → Bool
  | [], _ => true
  | _ :: _, [] => false
  | a :: as, b :: bs => a == b && prefixB as bs

/-- Boolean list-infix test. -/
def infixB (n : List Char) : List Char → Bool
  | [] => n.isEmpty
  | b :: bs => prefixB n (b :: bs) || infixB n bs

/-- Python substring containment `needle in hay`. -/
def pyIn (needle hay : String) : Bool := infixB needle.data hay.data

/-- Python `str.split()` with no arguments: splits on whitespace runs and
drops empty pieces.  Worker over the character list (`acc` is the current
word, reversed). -/
def wordsGo : List Char → List Char → List String
  | [], acc => if acc.isEmpty then [] else [⟨acc.reverse⟩]
  | c :: cs, acc =>
    if isSpacePy c then
      (if acc.isEmpty then wordsGo cs [] else (⟨acc.reverse⟩ : String) :: wordsGo cs [])
    else wordsGo cs (c :: acc)

def pySplitWs (s : String) : List String := wordsGo s.data []

/-- Byte-order (code-point) comparison of strings, the `BINARY` collation
SQLite uses for `ORDER BY` on `TEXT` columns. -/
def charListLe : List Char → List Char → Bool
  | [], _ => true
  | _ :: _, [] => false
  | a :: as, b :: bs =>
    if a.toNat < b.toNat then true
    else if b.toNat < a.toNat then false
    else charListLe as bs

def strLeB (a b : String) : Bool := charListLe a.data b.data

/-- Sorting helper: insert `x` before the first element `y` of the list
with `le x y = true`. -/
def insertB {α : Type} (le : α → α → Bool) (x : α) : List α → List α
  | [] => [x]
  | y :: ys => if le x y then x :: y :: ys else y :: insertB le x ys

/-- Insertion sort, modelling an SQL `ORDER BY`. -/
def sortB {α : Type} (le : α → α → Bool) : List α → List α
  | [] => []
  | x :: xs => insertB le x (sortB le xs)

/-! ### `app.py` — the flat knowledge-base pipeline

Embedding of `process_user_message` (app.py lines 97–277) and the
conversation-log handling of the `chat` (lines 34–65) and `reset`
(lines 67–71) routes. -/

/-- One entry of the `knowledge_base` dict of `process_user_message`. -/
structure KBEntry where
  keywords : List String
  response : String
  confidence : ℚ
  sourceTag : String
deriving DecidableEq, Repr

def salutations : List String :=
  ["bonjour", "salut", "coucou", "hello", "hey", "bonsoir"]

def greetingResponse : String :=
  "Bonjour ! Comment puis-je vous aider avec votre exploitation agricole aujourd\x27hui ? 🚜"

def kbMaladies : KBEntry where
  keywords := ["maladie", "signes", "symptôme", "feuille", "jaune", "tache", "malade"]
  response := "🌿 **Signes courants de maladies des plantes:**\n\n• **Feuilles jaunies**: Manque d\x27azote ou problème d\x27arrosage\n• **Taches brunes/noires**: Infections fongiques\n• **Flétrissement**: Maladies vasculaires ou déshydratation\n• **Moisissure blanche**: Oïdium (champignon)\n• **Déformation des feuilles**: Virus ou carences\n\n💡 **Conseil**: Inspectez régulièrement vos plants et isolez immédiatement les plants malades."
  confidence := 0.92
  sourceTag := "Base de données agricole"

def kbPlantation : KBEntry where
  keywords := ["planter", "plantation", "semer", "semis", "quand", "période", "maïs", "tomate", "sorgho"]
  response := "📅 **Calendrier de plantation (Burkina Faso):**\n\n**Cultures principales:**\n• **Maïs**: Mars-Mai (après dernières gelées)\n• **Sorgho**: Mai-Juin (début saison des pluies)\n• **Mil**: Juin-Juillet\n• **Riz**: Mai-Juin (zones humides)\n• **Niébé**: Juillet-Août\n• **Arachide**: Mai-Juin\n\n🌡️ **Important**: Sol à minimum 15°C et humidité suffisante."
  confidence := 0.95
  sourceTag := "Calendrier agricole local"

def kbMeteo : KBEntry where
  keywords := ["météo", "temps", "pluie", "sécheresse", "prévision", "climat", "température"]
  response := "🌤️ **Prévisions météorologiques:**\n\n📍 **Ouagadougou, Centre:**\n• **Aujourd\x27hui**: Ensoleillé, 32-35°C\n• **Cette semaine**: Temps sec, pas de pluie\n• **Tendance**: Période sèche continue\n\n⚠️ **Alerte sécheresse**: \n• Irrigation recommandée 2-3x/semaine\n• Paillage pour conserver l\x27humidité\n• Surveillance accrue des cultures"
  confidence := 0.88
  sourceTag := "Service météo"

def kbParasites : KBEntry where
  keywords := ["parasite", "insecte", "lutte", "protection", "ravageur", "chenille", "puceron", "criquet"]
  response := "🐛 **Lutte contre les parasites:**\n\n**Méthodes naturelles:**\n• Rotation des cultures (espacer 3-4 ans)\n• Plantes répulsives: basilic, œillets d\x27Inde\n• Savon noir dilué (15ml/L)\n• Coccinelles contre les pucerons\n\n**Méthodes biologiques:**\n• Neem (margousier) - insecticide naturel\n• Bacillus thuringiensis (chenilles)\n\n**Prévention:**\n• Inspection 2x/semaine\n• Élimination plants infectés\n• Espacement correct (aération)"
  confidence := 0.91
  sourceTag := "Guide phytosanitaire"

def kbIrrigation : KBEntry where
  keywords := ["eau", "arrosage", "irrigation", "arroser", "goutte", "pompe"]
  response := "💧 **Gestion de l\x27irrigation:**\n\n**Besoins en eau (Burkina Faso):**\n• Saison sèche: 20-30L/m²/semaine\n• Saison des pluies: Selon précipitations\n\n**Techniques recommandées:**\n• Goutte-à-goutte: économie 40-60%\n• Irrigation matinale (5h-8h)\n• Paillage: réduit évaporation de 70%\n• Bassins de rétention d\x27eau\n\n**Fréquence:**\n• Légumes: 2-3x/semaine\n• Céréales: 1-2x/semaine\n• Arbres fruitiers: 1x/semaine"
  confidence := 0.93
  sourceTag := "Manuel irrigation"

def kbSol : KBEntry where
  keywords := ["sol", "terre", "compost", "engrais", "fertilisant", "ph", "amendement"]
  response := "🌱 **Gestion et amélioration du sol:**\n\n**Sols du Burkina Faso:**\n• Ferrugineux tropicaux (80%)\n• Argilo-limoneux (bas-fonds)\n• pH: 5.5-7.0\n\n**Amélioration:**\n• Compost: 3-5 kg/m² annuellement\n• Fumier bien décomposé: 2-4 kg/m²\n• Paillage permanent\n• Légumineuses (fixation azote)\n\n**Test sol simple:**\n• Vinaigre = pétille → sol calcaire\n• Ne pétille pas → sol acide"
  confidence := 0.90
  sourceTag := "Pédologie agricole"

def kbRecolte : KBEntry where
  keywords := ["récolte", "récolter", "cueillir", "maturité", "rendement", "conservation"]
  response := "🌾 **Guide de récolte:**\n\n**Signes de maturité:**\n• **Maïs**: Soies brunies, grains fermes\n• **Sorgho**: Grains durs, panicules courbées\n• **Tomates**: Couleur uniforme, légèrement souples\n• **Oignons**: Feuillage sec, couché\n\n**Bonnes pratiques:**\n• Récolter par temps sec\n• Matin ou soir (éviter chaleur)\n• Outils propres et désinfectés\n• Stockage ventilé et sec\n\n**Conservation:**\n• Greniers surélevés (rongeurs)\n• Température fraîche\n• Inspection régulière"
  confidence := 0.89
  sourceTag := "Guide post-récolte"

/-- The `knowledge_base` dict in its declaration (= iteration) order. -/
def knowledge_base : List KBEntry :=
  [kbMaladies, kbPlantation, kbMeteo, kbParasites, kbIrrigation, kbSol, kbRecolte]

/-- `sum(1 for keyword in data['keywords'] if keyword in user_input_lower)`. -/
def countMatches (low : String) (kws : List String) : Nat :=
  (kws.filter (fun k => pyIn k low)).length

/-- The best-match loop of `process_user_message` (app.py lines 250–258):
running pair `(best_match, max_matches)`, updated only on a strictly
greater count. -/
def selectGo (low : String) : List KBEntry → Option KBEntry → Nat → Option KBEntry × Nat
  | [], best, maxm => (best, maxm)
  | e :: rest, best, maxm =>
    let m := countMatches low e.keywords
    if maxm < m then selectGo low rest (some e) m
    else selectGo low rest best maxm

def selectBest (low : String) (kb : List KBEntry) : Option KBEntry × Nat :=
  selectGo low kb none 0

def defaultResponse : String :=
  "🤔 Je ne suis pas sûr de bien comprendre votre question.\n\n**Voici ce que je peux vous aider:**\n• 📅 Calendrier de plantation\n• 🌿 Identification des maladies\n• 🌤️ Prévisions météorologiques\n• 🐛 Lutte contre les parasites\n• 💧 Gestion de l\x27irrigation\n• 🌱 Amélioration du sol\n• 🌾 Conseils de récolte\n\nPosez-moi une question précise sur l\x27un de ces sujets!"

/-- `process_user_message` (app.py lines 97–277): greeting short-circuit,
then keyword-count scoring over `knowledge_base`, then the fixed fallback. -/
def process_user_message (user_input : String) : String × ℚ × String :=
  let low := pyLower user_input
  if salutations.any (fun s => pyIn s low) then
    (greetingResponse, 0.95, "base de connaissances")
  else
    match selectBest low knowledge_base with
    | (some best, maxm) =>
      if 0 < maxm then (best.response, best.confidence, best.sourceTag)
      else (defaultResponse, 0.50, "Système")
    | (none, _) => (defaultResponse, 0.50, "Système")

/-- One conversation turn as appended by the `chat` route (app.py
lines 46–53). -/
structure Turn where
  user : String
  bot : String
  score : ℚ
  sourceTag : String
  timestamp : String
deriving DecidableEq, Repr

/-- The `chat` route (app.py lines 34–65): strip the input, decline to
produce a turn when it is empty, otherwise run the pipeline and append
one turn to the session conversation. -/
def chat (input : String) (log : List Turn) (ts : String) : List Turn :=
  let user_input := pyStrip input
  if user_input = "" then log
  else
    let r := process_user_message user_input
    log ++ [⟨user_input, r.1, r.2.1, r.2.2, ts⟩]

/-- Appending one turn to the session conversation list (app.py line 47). -/
def appendTurn (log : List Turn) (t : Turn) : List Turn := log ++ [t]

/-- The `reset` route (app.py lines 67–71): `session.pop('conversation')`,
after which `get_conversation` returns the empty list. -/
def clearLog : List Turn := []

/-- `get_conversation`: the ordered turn list itself. -/
def allTurns (log : List Turn) : List Turn := log

/-! ### `db.py` — the SQLite knowledge store

The four tables created by `init_db` are modelled as explicit lists; row
ids are replaced by the (unique) `nom` keys through which the source
joins and seeds them. -/

/-- A row of the `cultures` table (db.py lines 23–33). -/
structure Culture where
  nom : String
  type_culture : String
  duree_cycle_jours : Nat
  description : String
deriving DecidableEq, Repr

/-- A row of the `periodes_plantation` table (db.py lines 36–48),
with the owning culture referenced by name. -/
structure Periode where
  culture : String
  region : String
  mois_debut : Nat
  mois_fin : Nat
  conseils : Option String
deriving DecidableEq, Repr

/-- A row of the `sols` table (db.py lines 51–59). -/
structure Sol where
  nom : String
  description : String
deriving DecidableEq, Repr

/-- The knowledge-store state: the four tables, rows in insertion
(rowid) order.  `culture_sols` holds (culture nom, sol nom) pairs. -/
structure Store where
  cultures : List Culture
  periodes : List Periode
  sols : List Sol
  culture_sols : List (String × String)
deriving DecidableEq, Repr

/-- The seed contents inserted by `seed_basic_data` (db.py lines 77–174)
into an empty database. -/
def seedStore : Store where
  cultures :=
    [⟨"Maïs", "céréale", 90, "Céréale de base très cultivée, sensible au manque d\x27eau au démarrage."⟩,
     ⟨"Sorgho", "céréale", 110, "Céréale résistante à la sécheresse, adaptée aux zones sèches."⟩,
     ⟨"Mil", "céréale", 100, "Céréale traditionnelle très résistante, pour sols pauvres."⟩,
     ⟨"Riz", "céréale", 120, "Culture de bas-fond demandant beaucoup d\x27eau."⟩,
     ⟨"Niébé", "légumineuse", 70, "Légumineuse qui fixe l\x27azote et enrichit le sol."⟩,
     ⟨"Arachide", "légumineuse", 110, "Culture de rente, apprécie les sols sablo-limoneux."⟩,
     ⟨"Tomate", "maraîchère", 80, "Culture maraîchère exigeante en eau et en suivi sanitaire."⟩,
     ⟨"Oignon", "maraîchère", 120, "Culture de saison sèche, sensible à l\x27excès d\x27eau."⟩]
  periodes :=
    [⟨"Maïs", "Centre", 5, 7, some "Semer dès l\x27installation des pluies, sur sol bien préparé."⟩,
     ⟨"Sorgho", "Centre", 6, 7, some "Semer après le maïs, tolère mieux les pauses pluviométriques."⟩,
     ⟨"Mil", "Nord", 6, 7, some "Privilégier le mil dans les zones très sèches."⟩,
     ⟨"Riz", "Bas-fonds", 6, 7, some "Planter dans les bas-fonds ou zones irriguées."⟩,
     ⟨"Niébé", "Centre", 7, 8, some "Peut être associé avec le maïs pour enrichir le sol."⟩,
     ⟨"Arachide", "Centre", 5, 6, some "Semer en début de saison des pluies sur sols légers."⟩,
     ⟨"Tomate", "Périmètre irrigué", 11, 2, some "Culture de saison sèche avec irrigation régulière."⟩,
     ⟨"Oignon", "Périmètre irrigué", 11, 1, some "Préférer des sols légers, bien drainés."⟩]
  sols :=
    [⟨"sablonneux", "Sols légers, pauvres en matière organique, se réchauffent vite mais retiennent peu l\x27eau."⟩,
     ⟨"argilo-limoneux", "Sols fertiles, bons pour de nombreuses cultures mais sensibles au tassement."⟩,
     ⟨"ferrugineux tropicaux", "Sols dominants au Burkina, souvent pauvres en matière organique."⟩]
  culture_sols :=
    [("Maïs", "ferrugineux tropicaux"),
     ("Maïs", "argilo-limoneux"),
     ("Sorgho", "ferrugineux tropicaux"),
     ("Mil", "sablonneux"),
     ("Riz", "argilo-limoneux"),
     ("Tomate", "argilo-limoneux"),
     ("Oignon", "sablonneux")]

/-- `find_culture_in_text` (db.py lines 177–186): first registered
culture whose lower-cased name occurs in the lower-cased text. -/
def find_culture_in_text (st : Store) (text : String) : Option String :=
  let low := pyLower text
  (st.cultures.find? (fun c => pyIn (pyLower c.nom) low)).map (·.nom)

/-- A result row of the `get_planting_info` query: period columns plus
the joined culture's cycle duration. -/
structure PeriodRow where
  region : String
  mois_debut : Nat
  mois_fin : Nat
  conseils : Option String
  duree_cycle_jours : Nat
deriving DecidableEq, Repr

/-- `get_planting_info` (db.py lines 189–207): periods of the culture
whose name case-insensitively equals the argument, joined with the
culture's cycle duration, ordered by region; `None` when no row. -/
def get_planting_info (st : Store) (culture_name : String) : Option (List PeriodRow) :=
  let rows := st.periodes.filterMap (fun p =>
    (st.cultures.find? (fun c => c.nom == p.culture && pyLower c.nom == pyLower culture_name)).map
      (fun c => PeriodRow.mk p.region p.mois_debut p.mois_fin p.conseils c.duree_cycle_jours))
  let rows := sortB (fun a b => strLeB a.region b.region) rows
  if rows.isEmpty then none else some rows

/-- `get_soil_recommendations` (db.py lines 210–241): first stored soil
whose name occurs in the lower-cased text; description plus associated
cultures (ordered by name, joined by ", "). -/
def get_soil_recommendations (st : Store) (text : String) : Option String :=
  let low := pyLower text
  match st.sols.find? (fun sol => pyIn sol.nom low) with
  | none => none
  | some sol =>
    let cultures := sortB strLeB ((st.cultures.filter
        (fun c => st.culture_sols.contains (c.nom, sol.nom))).map (·.nom))
    let cultures_txt :=
      if cultures.isEmpty then "plusieurs cultures adaptées" else String.intercalate ", " cultures
    some ("🌱 **Sol " ++ sol.nom ++ "**\n\n" ++ sol.description ++
          "\n\n✅ Cultures adaptées : " ++ cultures_txt ++ ".")

/-! ### The store-backed response composer

Modelled from the spec: the repository sources under `src/` contain the
flat-dictionary chat pipeline (`app.py`) and the knowledge-store layer
(`db.py`), but not the store-backed composer the spec follows (its §9
notes two divergent chat implementations and adopts the store-backed
one).  The definitions below reconstruct that composer from spec §4.4. -/

/-- Modelled from the spec: French month names used when rendering a
planting period as "<StartMonthName> – <EndMonthName>" (spec §4.4
tier 2); the month-name rendering itself is part of the missing
composer. -/
def monthNameFr (m : Nat) : String :=
  (["Janvier", "Février", "Mars", "Avril", "Mai", "Juin", "Juillet",
    "Août", "Septembre", "Octobre", "Novembre", "Décembre"].getD (m - 1) "?")

/-- Modelled from the spec: the planting/temporal keyword list of the
missing composer (spec §4.1 step 3: "temporal words like
when/period/sow"). -/
def plantingKeywords : List String :=
  ["planter", "plantation", "semer", "semis", "quand", "période"]

/-- Modelled from the spec (§4.4 tier 2): one bullet line per period,
"Region <R>: <StartMonthName> – <EndMonthName>." with an optional advice
line indented beneath. -/
def formatPeriodLine (r : PeriodRow) : String :=
  "• Région " ++ r.region ++ " : " ++ monthNameFr r.mois_debut ++ " – " ++
    monthNameFr r.mois_fin ++ "." ++
    (match r.conseils with
     | some c => "\n   " ++ c
     | none => "")

/-- Modelled from the spec (§4.4 tier 2): the multiline planting answer —
a header naming the crop, the period lines, and a trailing line stating
the cycle duration in days taken from the first period row. -/
def composePlanting (nom : String) (rows : List PeriodRow) : String :=
  let header := "📅 **Périodes de plantation pour le " ++ nom ++ "**"
  let body := String.intercalate "\n" (rows.map formatPeriodLine)
  let cycleLine :=
    match rows with
    | [] => ""
    | r :: _ => "\n\n⏱️ Durée du cycle : " ++ toString r.duree_cycle_jours ++ " jours."
  header ++ "\n" ++ body ++ cycleLine

/-- Modelled from the spec: tiers 3–5 of the composer ladder (§4.4) —
soil advice from the store, then the generic keyword scoring and the
fixed fallback (shared with the `app.py` embedding). -/
def composeRest (st : Store) (low : String) : String × ℚ × String :=
  match get_soil_recommendations st low with
  | some txt => (txt, 0.93, "knowledge-store (soils)")
  | none =>
    match selectBest low knowledge_base with
    | (some best, maxm) =>
      if 0 < maxm then (best.response, best.confidence, best.sourceTag)
      else (defaultResponse, 0.50, "system")
    | (none, _) => (defaultResponse, 0.50, "system")

/-- Modelled from the spec: the store-backed `compose(userText)` decision
ladder (§4.4) — greeting, then planting lookup through
`find_culture_in_text` / `get_planting_info`, then the lower tiers. -/
def compose (st : Store) (userText : String) : String × ℚ × String :=
  let low := pyLower userText
  if salutations.any (fun s => pyIn s low) then
    (greetingResponse, 0.95, "greeting")
  else
    match (if plantingKeywords.any (fun k => pyIn k low)
           then find_culture_in_text st userText else none) with
    | some nom =>
      match get_planting_info st nom with
      | some rows => (composePlanting nom rows, 0.96, "knowledge-store (crops)")
      | none => composeRest st low
    | none => composeRest st low

/-! ### `nlp_processor.py` — entity extraction -/

/-- The fixed city list of `extraire_ville` (nlp_processor.py
lines 47–48). -/
def villes_bf : List String :=
  ["ouagadougou", "bobo-dioulasso", "koudougou", "ouahigouya",
   "banfora", "dedougou", "fada", "kaya", "tenkodogo", "gaoua"]

/-- Strict byte-order comparison of strings (Python `<` on `str`). -/
def strLtB (a b : String) : Bool := strLeB a b && !(a == b)

/-- `difflib.get_close_matches(word, possibilities, n=1, cutoff)` with
the sequence similarity measure abstracted as `sim` (difflib's
`SequenceMatcher.ratio`, an external library): keep the possibilities
whose similarity reaches the cutoff and return the greatest by the
(score, string) pair ordering used by `heapq.nlargest`; `none` when no
possibility qualifies. -/
def getCloseMatches1 (sim : String → String → ℚ) (word : String)
    (poss : List String) (cutoff : ℚ) : Option String :=
  match poss.filter (fun p => cutoff ≤ sim word p) with
  | [] => none
  | x :: xs =>
    some (xs.foldl (fun acc p =>
      if sim word acc < sim word p ∨ (sim word acc = sim word p ∧ strLtB acc p) then p
      else acc) x)

/-- `extraire_ville` (nlp_processor.py lines 45–62), with the spaCy
tokenizer `tok` and the difflib similarity `sim` abstracted as
parameters (external libraries): first pass, exact membership of a token
of the lower-cased text in the city list; second pass, fuzzy match with
cutoff 0.7 over the whitespace-split words, returning the first word's
close city; else `None`.  Hits are returned capitalized. -/
def extraire_ville (tok : String → List String) (sim : String → String → ℚ)
    (texte : String) : Option String :=
  let low := pyLower texte
  match (tok low).find? (fun t => villes_bf.contains t) with
  | some t => some (pyCapitalize t)
  | none =>
    match (pySplitWs low).findSome?
        (fun mot => getCloseMatches1 sim mot villes_bf (7/10)) with
    | some v => some (pyCapitalize v)
    | none => none

/-- The crop→aliases table of `extraire_culture` (nlp_processor.py
lines 107–120), in dict declaration order. -/
def culturesAliases : List (String × List String) :=
  [("maïs", ["mais", "maïs", "maiz"]),
   ("mil", ["mil", "millet"]),
   ("sorgho", ["sorgho", "sorgo"]),
   ("riz", ["riz", "paddy"]),
   ("tomate", ["tomate", "tomates"]),
   ("oignon", ["oignon", "oignons", "ognon"]),
   ("arachide", ["arachide", "arachides", "cacahuète"]),
   ("niébé", ["niébé", "niebe", "haricot"]),
   ("coton", ["coton"]),
   ("sésame", ["sésame", "sesame"]),
   ("chou", ["chou", "choux"]),
   ("salade", ["salade", "laitue"])]

/-- `extraire_culture` (nlp_processor.py lines 105–129): first crop (in
table order) one of whose aliases occurs as a raw substring of the
lower-cased text. -/
def extraire_culture (texte : String) : Option String :=
  let low := pyLower texte
  (culturesAliases.find? (fun e => e.2.any (fun v => pyIn v low))).map (·.1)

/-! ### `database.py` — `rechercher_culture_par_nom`

Row types mirror the table schemas of `create_tables`; nullable `TEXT`
columns are `Option String`.  `json.loads` (an external library) is
abstracted as a fallible parser parameter `jparse`; the stored JSON-like
list fields hold string arrays, so a successful parse is modelled as a
`List String`. -/

structure RawCulture where
  id : Nat
  nom : String
  nom_scientifique : Option String
  type_culture : String
  description : Option String
  peut_cultiver_burkina : Bool
  raison_non_culture : Option String
  besoins_eau : Option String
  type_sol : Option String
  conditions_climatiques : Option String
  conseils_generaux : Option String
deriving DecidableEq, Repr

structure RawVariete where
  id : Nat
  culture_id : Nat
  nom : String
  description : Option String
  duree_cycle_jours : Option Nat
  rendement_attendu : Option String
  resistance_maladies : Option String
deriving DecidableEq, Repr

structure RawMaladie where
  id : Nat
  nom : String
  type_agent : String
  description : Option String
  symptomes : Option String
  conditions_favorables : Option String
deriving DecidableEq, Repr

structure CultureMaladie where
  culture_id : Nat
  maladie_id : Nat
  frequence : Option String
  gravite : Option String
  stade_sensible : Option String
deriving DecidableEq, Repr

structure RawTraitement where
  id : Nat
  nom : String
  type_traitement : String
  description : Option String
  mode_application : Option String
  delai_attente_jours : Option Nat
  precautions : Option String
deriving DecidableEq, Repr

structure MaladieTraitement where
  maladie_id : Nat
  traitement_id : Nat
  efficacite : Option String
  type_usage : Option String
  posologie : Option String
deriving DecidableEq, Repr

structure RawPeriodePlantation where
  id : Nat
  culture_id : Nat
  saison : String
  mois_debut : Nat
  mois_fin : Nat
  region : Option String
  conseils : Option String
deriving DecidableEq, Repr

structure RawEngrais where
  id : Nat
  nom : String
  type_engrais : String
  composition : Option String
  description : Option String
  mode_application : Option String
  precautions : Option String
deriving DecidableEq, Repr

structure CultureEngrais where
  culture_id : Nat
  engrais_id : Nat
  stade_application : Option String
  dose_recommandee : Option String
  frequence_application : Option String
  methode_application : Option String
deriving DecidableEq, Repr

structure RawParasite where
  id : Nat
  nom : String
  nom_scientifique : Option String
  type_organisme : String
  description : Option String
  plantes_hotes : Option String
  symptomes : Option String
deriving DecidableEq, Repr

structure CultureParasite where
  culture_id : Nat
  parasite_id : Nat
  frequence : Option String
  gravite : Option String
  stade_sensible : Option String
deriving DecidableEq, Repr

structure MethodeLutte where
  id : Nat
  parasite_id : Nat
  type_lutte : String
  description : Option String
  efficacite : Option String
  delai_attente_jours : Option Nat
  precautions : Option String
deriving DecidableEq, Repr

structure AssociationBenefique where
  culture_id_1 : Nat
  culture_id_2 : Nat
  benefices : String
  type_association : Option String
  notes : Option String
deriving DecidableEq, Repr

/-- The relational database handled by `AgricultureDatabase`. -/
structure AgriDB where
  cultures : List RawCulture
  varietes : List RawVariete
  maladies : List RawMaladie
  culture_maladies : List CultureMaladie
  traitements : List RawTraitement
  maladie_traitements : List MaladieTraitement
  periodes_plantation : List RawPeriodePlantation
  engrais : List RawEngrais
  culture_engrais : List CultureEngrais
  parasites : List RawParasite
  culture_parasites : List CultureParasite
  methodes_lutte_parasites : List MethodeLutte
  associations_benefiques : List AssociationBenefique

/-- Comparison on nullable text columns; `NULL` sorts lowest, as in
SQLite. -/
def optStrLeB : Option String → Option String → Bool
  | none, _ => true
  | some _, none => false
  | some a, some b => strLeB a b

def optStrLtB (a b : Option String) : Bool := optStrLeB a b && !(a == b)

/-- `ORDER BY gravite DESC, frequence DESC` on a join row carrying the
two columns. -/
def graviteFreqDescLe (a b : Option String × Option String) : Bool :=
  if optStrLtB b.1 a.1 then true
  else if optStrLtB a.1 b.1 then false
  else optStrLeB b.2 a.2

/-- The JSON-list decode step of `rechercher_culture_par_nom`
(database.py lines 1049–1057 and the analogous loops): a `NULL` or empty
stored field gives `[]`; a non-empty field is parsed, and a parse
failure is recovered as `[]`. -/
def decodeListField (jparse : String → Option (List String)) : Option String → List String
  | none => []
  | some s => if s = "" then [] else (jparse s).getD []

/-- A decoded `varietes` row. -/
structure DecodedVariete where
  id : Nat
  nom : String
  description : Option String
  duree_cycle_jours : Option Nat
  rendement_attendu : Option String
  resistance_maladies : List String
deriving DecidableEq, Repr

/-- A `traitements` row joined with its `maladie_traitements` columns. -/
structure TraitementRow where
  t : RawTraitement
  efficacite : Option String
  type_usage : Option String
  posologie : Option String
deriving DecidableEq, Repr

/-- A decoded `maladies` row with its join columns and treatments. -/
structure DecodedMaladie where
  id : Nat
  nom : String
  type_agent : String
  description : Option String
  symptomes : List String
  conditions_favorables : List String
  frequence : Option String
  gravite : Option String
  stade_sensible : Option String
  traitements : List TraitementRow
deriving DecidableEq, Repr

/-- An `engrais` row joined with its `culture_engrais` columns. -/
structure EngraisRow where
  e : RawEngrais
  stade_application : Option String
  dose_recommandee : Option String
  frequence_application : Option String
  methode_application : Option String
deriving DecidableEq, Repr

/-- A decoded `parasites` row with its join columns and control
methods. -/
structure DecodedParasite where
  id : Nat
  nom : String
  nom_scientifique : Option String
  type_organisme : String
  description : Option String
  plantes_hotes : List String
  symptomes : List String
  frequence : Option String
  gravite : Option String
  stade_sensible : Option String
  methodes_lutte : List MethodeLutte
deriving DecidableEq, Repr

/-- One row of the `associations_benefiques` union query. -/
structure AssociationRow where
  id : Nat
  nom : String
  benefices : String
  type_association : Option String
  notes : Option String
deriving DecidableEq, Repr

/-- The dictionary assembled and returned by
`rechercher_culture_par_nom`. -/
structure DecodedCulture where
  id : Nat
  nom : String
  nom_scientifique : Option String
  type_culture : String
  description : Option String
  peut_cultiver_burkina : Bool
  raison_non_culture : Option String
  besoins_eau : Option String
  type_sol : List String
  conditions_climatiques : List String
  conseils_generaux : List String
  varietes : List DecodedVariete
  periodes_plantation : List RawPeriodePlantation
  maladies : List DecodedMaladie
  engrais : List EngraisRow
  parasites : List DecodedParasite
  associations_benefiques : List AssociationRow
deriving DecidableEq, Repr

/-- The `maladies` sub-query of `rechercher_culture_par_nom`
(database.py lines 1092–1127): join through `culture_maladies` ordered
by gravity then frequency descending, JSON fields decoded, and the
treatments of each disease ordered by effectiveness descending. -/
def decodedMaladies (jparse : String → Option (List String)) (db : AgriDB)
    (culture_id : Nat) : List DecodedMaladie :=
  let joins := sortB (fun a b => graviteFreqDescLe (a.gravite, a.frequence) (b.gravite, b.frequence))
    (db.culture_maladies.filter (fun cm => cm.culture_id == culture_id))
  joins.filterMap (fun cm =>
    (db.maladies.find? (fun m => m.id == cm.maladie_id)).map (fun m =>
      let traitements := sortB (fun a b => optStrLeB b.efficacite a.efficacite)
        (db.maladie_traitements.filter (fun mt => mt.maladie_id == m.id))
      { id := m.id
        nom := m.nom
        type_agent := m.type_agent
        description := m.description
        symptomes := decodeListField jparse m.symptomes
        conditions_favorables := decodeListField jparse m.conditions_favorables
        frequence := cm.frequence
        gravite := cm.gravite
        stade_sensible := cm.stade_sensible
        traitements := traitements.filterMap (fun mt =>
          (db.traitements.find? (fun t => t.id == mt.traitement_id)).map (fun t =>
            TraitementRow.mk t mt.efficacite mt.type_usage mt.posologie)) }))

/-- The `parasites` sub-query of `rechercher_culture_par_nom`
(database.py lines 1141–1176). -/
def decodedParasites (jparse : String → Option (List String)) (db : AgriDB)
    (culture_id : Nat) : List DecodedParasite :=
  let joins := sortB (fun a b => graviteFreqDescLe (a.gravite, a.frequence) (b.gravite, b.frequence))
    (db.culture_parasites.filter (fun cp => cp.culture_id == culture_id))
  joins.filterMap (fun cp =>
    (db.parasites.find? (fun p => p.id == cp.parasite_id)).map (fun p =>
      { id := p.id
        nom := p.nom
        nom_scientifique := p.nom_scientifique
        type_organisme := p.type_organisme
        description := p.description
        plantes_hotes := decodeListField jparse p.plantes_hotes
        symptomes := decodeListField jparse p.symptomes
        frequence := cp.frequence
        gravite := cp.gravite
        stade_sensible := cp.stade_sensible
        methodes_lutte := sortB (fun a b =>
            if strLtB a.type_lutte b.type_lutte then true
            else if strLtB b.type_lutte a.type_lutte then false
            else optStrLeB b.efficacite a.efficacite)
          (db.methodes_lutte_parasites.filter (fun ml => ml.parasite_id == p.id)) }))

/-- `rechercher_culture_par_nom` (database.py lines 1023–1195): find the
culture row by case-insensitive name, decode its JSON-like list fields
(recovering parse failures as empty lists), and assemble the record with
its varieties, planting periods, diseases, fertilizers, parasites and
beneficial associations; `None` when no culture matches. -/
def rechercher_culture_par_nom (jparse : String → Option (List String))
    (db : AgriDB) (nom : String) : Option DecodedCulture :=
  match db.cultures.find? (fun c => pyLower c.nom == pyLower nom) with
  | none => none
  | some c =>
    some
      { id := c.id
        nom := c.nom
        nom_scientifique := c.nom_scientifique
        type_culture := c.type_culture
        description := c.description
        peut_cultiver_burkina := c.peut_cultiver_burkina
        raison_non_culture := c.raison_non_culture
        besoins_eau := c.besoins_eau
        type_sol := decodeListField jparse c.type_sol
        conditions_climatiques := decodeListField jparse c.conditions_climatiques
        conseils_generaux := decodeListField jparse c.conseils_generaux
        varietes := (sortB (fun a b => strLeB a.nom b.nom)
            (db.varietes.filter (fun v => v.culture_id == c.id))).map (fun v =>
          DecodedVariete.mk v.id v.nom v.description v.duree_cycle_jours v.rendement_attendu
            (decodeListField jparse v.resistance_maladies))
        periodes_plantation := sortB (fun a b => a.mois_debut ≤ b.mois_debut)
          (db.periodes_plantation.filter (fun p => p.culture_id == c.id))
        maladies := decodedMaladies jparse db c.id
        engrais := (sortB (fun a b => optStrLeB a.stade_application b.stade_application)
            (db.culture_engrais.filter (fun ce => ce.culture_id == c.id))).filterMap (fun ce =>
          (db.engrais.find? (fun e => e.id == ce.engrais_id)).map (fun e =>
            EngraisRow.mk e ce.stade_application ce.dose_recommandee
              ce.frequence_application ce.methode_application))
        parasites := decodedParasites jparse db c.id
        associations_benefiques :=
          (db.associations_benefiques.filter (fun ab => ab.culture_id_1 == c.id)).filterMap
            (fun ab => (db.cultures.find? (fun c2 => c2.id == ab.culture_id_2)).map (fun c2 =>
              AssociationRow.mk c2.id c2.nom ab.benefices ab.type_association ab.notes)) ++
          (db.associations_benefiques.filter (fun ab => ab.culture_id_2 == c.id)).filterMap
            (fun ab => (db.cultures.find? (fun c1 => c1.id == ab.culture_id_1)).map (fun c1 =>
              AssociationRow.mk c1.id c1.nom ab.benefices ab.type_association ab.notes)) }

/-! ### Helper lemmas -/

theorem prefixB_iff : ∀ (a b : List Char), prefixB a b = true ↔ a <+: b
  | [], b => by simp [prefixB, List.nil_prefix]
  | x :: xs, [] => by simp [prefixB, List.prefix_nil]
  | x :: xs, y :: ys => by
    simp [prefixB, List.cons_prefix_cons, Bool.and_eq_true, prefixB_iff xs ys]

theorem infixB_iff (a : List Char) : ∀ (b : List Char), infixB a b = true ↔ a <:+: b
  | [] => by simp [infixB, List.infix_nil, List.isEmpty_iff]
  | y :: ys => by
    simp [infixB, List.infix_cons_iff, Bool.or_eq_true, prefixB_iff, infixB_iff a ys]

theorem pyIn_trans {a b c : String} (h1 : pyIn a b = true) (h2 : pyIn b c = true) :
    pyIn a c = true := by
  rw [pyIn, infixB_iff] at h1 h2 ⊢
  exact h1.trans h2

theorem find_first_in_append {α : Type} (p : α → Bool) (l1 : List α) (x : α) (l2 : List α)
    (h1 : ∀ y ∈ l1, p y = false) (hx : p x = true) :
    (l1 ++ x :: l2).find? p = some x := by
  induction l1 with
  | nil => exact List.find?_cons_of_pos _ hx
  | cons a as ih =>
    rw [List.cons_append, List.find?_cons_of_neg]
    · exact ih fun y hy => h1 y (List.mem_cons_of_mem a hy)
    · simp [h1 a (List.mem_cons_self a as)]

theorem findSome_first_in_append {α β : Type} (f : α → Option β) (l1 : List α) (x : α)
    (l2 : List α) (v : β) (h1 : ∀ y ∈ l1, f y = none) (hx : f x = some v) :
    (l1 ++ x :: l2).findSome? f = some v := by
  induction l1 with
  | nil => rw [List.nil_append, List.findSome?_cons, hx]
  | cons a as ih =>
    rw [List.cons_append, List.findSome?_cons, h1 a (List.mem_cons_self a as)]
    exact ih fun y hy => h1 y (List.mem_cons_of_mem a hy)

/-- Full characterization of the best-match loop: either no element
beats the running maximum and the accumulator is returned unchanged, or
the result is the first element attaining the final maximum, every
earlier element counting strictly less and every later one at most as
much. -/
theorem selectGo_spec (low : String) (l : List KBEntry) :
    ∀ (best : Option KBEntry) (maxm : Nat),
      (selectGo low l best maxm = (best, maxm) ∧
        ∀ e ∈ l, countMatches low e.keywords ≤ maxm) ∨
      (∃ l1 b l2, l = l1 ++ b :: l2 ∧
        selectGo low l best maxm = (some b, countMatches low b.keywords) ∧
        maxm < countMatches low b.keywords ∧
        (∀ e ∈ l1, countMatches low e.keywords < countMatches low b.keywords) ∧
        (∀ e ∈ l2, countMatches low e.keywords ≤ countMatches low b.keywords)) := by
  induction l with
  | nil => intro best maxm; left; exact ⟨rfl, by simp⟩
  | cons e rest ih =>
    intro best maxm
    by_cases h : maxm < countMatches low e.keywords
    · have hstep : selectGo low (e :: rest) best maxm
          = selectGo low rest (some e) (countMatches low e.keywords) := by
        simp [selectGo, h]
      rcases ih (some e) (countMatches low e.keywords) with ⟨heq, hle⟩ |
        ⟨l1, b, l2, hsplit, hres, hlt, hl1, hl2⟩
      · right
        exact ⟨[], e, rest, by simp, by rw [hstep, heq], h, by simp, hle⟩
      · right
        refine ⟨e :: l1, b, l2, by simp [hsplit], by rw [hstep, hres],
          Nat.lt_trans h hlt, ?_, hl2⟩
        intro x hx
        rcases List.mem_cons.mp hx with rfl | hx
        · exact hlt
        · exact hl1 x hx
    · have hstep : selectGo low (e :: rest) best maxm = selectGo low rest best maxm := by
        simp [selectGo, h]
      rcases ih best maxm with ⟨heq, hle⟩ | ⟨l1, b, l2, hsplit, hres, hlt, hl1, hl2⟩
      · left
        refine ⟨by rw [hstep, heq], ?_⟩
        intro x hx
        rcases List.mem_cons.mp hx with rfl | hx
        · exact Nat.le_of_not_lt h
        · exact hle x hx
      · right
        refine ⟨e :: l1, b, l2, by simp [hsplit], by rw [hstep, hres], hlt, ?_, hl2⟩
        intro x hx
        rcases List.mem_cons.mp hx with rfl | hx
        · exact Nat.lt_of_le_of_lt (Nat.le_of_not_lt h) hlt
        · exact hl1 x hx

/-- When no entry exceeds the running maximum, the loop returns the
accumulator unchanged. -/
theorem selectGo_of_le (low : String) (l : List KBEntry) :
    ∀ (best : Option KBEntry) (maxm : Nat),
      (∀ e ∈ l, countMatches low e.keywords ≤ maxm) →
      selectGo low l best maxm = (best, maxm) := by
  induction l with
  | nil => intro best maxm _; rfl
  | cons e rest ih =>
    intro best maxm h
    have he : ¬ maxm < countMatches low e.keywords :=
      Nat.not_lt.mpr (h e (List.mem_cons_self e rest))
    have : selectGo low (e :: rest) best maxm = selectGo low rest best maxm := by
      simp [selectGo, he]
    rw [this]
    exact ih best maxm fun x hx => h x (List.mem_cons_of_mem e hx)

end Chatbot

namespace Chatbot

/-! ### Claim theorems -/

/-- C6: appending a turn to the conversation log and reading the log
back yields a sequence whose last element is that turn and whose prefix
is the previous log unchanged; clearing then reading yields the empty
sequence. -/
theorem log_roundtrip (log : List Turn) (t : Turn) :
    (allTurns (appendTurn log t)).getLast? = some t ∧
    (allTurns (appendTurn log t)).dropLast = log ∧
    allTurns clearLog = ([] : List Turn) :=
  ⟨by simp [allTurns, appendTurn],
   by simp [allTurns, appendTurn],
   rfl⟩

/-- C7: an empty or whitespace-only message at the `chat` entry point
produces and appends no turn: the conversation log is unchanged. -/
theorem empty_input_no_turn (input : String) (log : List Turn) (ts : String)
    (h : ∀ c ∈ input.data, isSpacePy c = true) :
    chat input log ts = log := by
  have hstrip : pyStrip input = "" := by
    unfold pyStrip
    rw [List.dropWhile_eq_nil_iff.mpr h]
    rfl
  unfold chat
  rw [hstrip]
  simp

theorem empty_input_no_turn_app :
    chat "  \t " [⟨"a", "b", 1, "s", "09:00"⟩] "09:05" = [⟨"a", "b", 1, "s", "09:00"⟩] :=
  empty_input_no_turn "  \t " _ "09:05" (by decide)

/-- C2 (counterexample): on the greeting input "bonjour" the pipeline's
source tag is "base de connaissances", not "greeting" as the claim
states. -/
theorem greeting_source_cex :
    (process_user_message "bonjour").2.2 = "base de connaissances" ∧
    "base de connaissances" ≠ "greeting" := by
  constructor
  · decide
  · decide

/-- C2 (amended): every input containing a greeting keyword as a
lowercased substring gets the fixed canned greeting with confidence
exactly 0.95 and source tag "base de connaissances", regardless of any
other keywords present. -/
theorem greeting_tier (input : String)
    (h : salutations.any (fun s => pyIn s (pyLower input)) = true) :
    process_user_message input = (greetingResponse, 0.95, "base de connaissances") := by
  unfold process_user_message
  simp [h]

theorem greeting_tier_app :
    process_user_message "bonjour, jamais de maladie ni parasite" =
      (greetingResponse, 0.95, "base de connaissances") :=
  greeting_tier _ (by decide)

/-- C3 (counterexample): on a zero-hit input the pipeline's source tag
is "Système", not "system" as the claim states (confidence 0.50 does
hold). -/
theorem fallback_source_cex :
    (process_user_message "xxyyzz").2.2 = "Système" ∧
    "Système" ≠ "system" ∧
    (process_user_message "xxyyzz").2.1 = 0.50 := by
  refine ⟨by decide, by decide, rfl⟩

/-- C3 (amended): every input with no greeting keyword and zero keyword
hits in every knowledge-base category gets the fixed fallback menu text
with confidence exactly 0.50 and source tag "Système"; this tier always
answers. -/
theorem fallback_tier (input : String)
    (hg : salutations.any (fun s => pyIn s (pyLower input)) = false)
    (hz : ∀ e ∈ knowledge_base, countMatches (pyLower input) e.keywords = 0) :
    process_user_message input = (defaultResponse, 0.50, "Système") := by
  have hsel : selectBest (pyLower input) knowledge_base = (none, 0) :=
    selectGo_of_le (pyLower input) knowledge_base none 0
      (fun e he => Nat.le_of_eq (hz e he))
  unfold process_user_message
  simp [hg, selectBest] at hsel ⊢
  rw [hsel]

theorem fallback_tier_app :
    process_user_message "zzz" = (defaultResponse, 0.50, "Système") :=
  fallback_tier "zzz" (by decide) (by decide)

/-- C4: whenever the generic scoring step of `process_user_message`
selects a category, that category's keyword-hit count is the maximum,
every category declared before it in the fixed order counts strictly
less (so equal-count ties go to the earlier category), and the selection
is a pure function of the input. -/
theorem category_scoring_first_max (input : String) (b : KBEntry) (m : Nat)
    (h : selectBest (pyLower input) knowledge_base = (some b, m)) :
    ∃ l1 l2, knowledge_base = l1 ++ b :: l2 ∧
      countMatches (pyLower input) b.keywords = m ∧ 0 < m ∧
      (∀ e ∈ l1, countMatches (pyLower input) e.keywords < m) ∧
      (∀ e ∈ l2, countMatches (pyLower input) e.keywords ≤ m) := by
  rcases selectGo_spec (pyLower input) knowledge_base none 0 with ⟨heq, _⟩ |
    ⟨l1, b', l2, hsplit, hres, hpos, hl1, hl2⟩
  · rw [selectBest, heq] at h
    injection h with h1 h2
    exact Option.noConfusion h1
  · rw [selectBest, hres] at h
    injection h with h1 h2
    injection h1 with h1
    subst h1
    subst h2
    exact ⟨l1, l2, hsplit, rfl, hpos, hl1, hl2⟩

theorem category_scoring_first_max_app :
    ∃ l1 l2, knowledge_base = l1 ++ kbMaladies :: l2 ∧
      countMatches (pyLower "maladie et parasite") kbMaladies.keywords = 1 ∧ 0 < 1 ∧
      (∀ e ∈ l1, countMatches (pyLower "maladie et parasite") e.keywords < 1) ∧
      (∀ e ∈ l2, countMatches (pyLower "maladie et parasite") e.keywords ≤ 1) :=
  category_scoring_first_max "maladie et parasite" kbMaladies 1 (by rfl)

/-- The store of claim C1's example: one planting-period row for Maïs
(region "Centre", months 5–7, cycle 90 days, advice "sow early"). -/
def storePlantingC1 : Store where
  cultures := [⟨"Maïs", "céréale", 90, "Céréale de base très cultivée."⟩]
  periodes := [⟨"Maïs", "Centre", 5, 7, some "sow early"⟩]
  sols := []
  culture_sols := []

/-- C1: on "quand planter le maïs" with the store holding the example
planting row, the composer answers from the knowledge store: the crop
"Maïs" is named, the row's region line carries the start/end month
names, the advice line appears, a trailing line gives the 90-day cycle,
confidence is exactly 0.96 and the source tag is
"knowledge-store (crops)". -/
theorem planting_scenario :
    (compose storePlantingC1 "quand planter le maïs").2.1 = 0.96 ∧
    (compose storePlantingC1 "quand planter le maïs").2.2 = "knowledge-store (crops)" ∧
    pyIn "Maïs" (compose storePlantingC1 "quand planter le maïs").1 = true ∧
    pyIn "• Région Centre : Mai – Juillet." (compose storePlantingC1 "quand planter le maïs").1 = true ∧
    pyIn "sow early" (compose storePlantingC1 "quand planter le maïs").1 = true ∧
    pyIn "Durée du cycle : 90 jours." (compose storePlantingC1 "quand planter le maïs").1 = true :=
  ⟨rfl, by decide, by decide, by decide, by decide, by decide⟩

/-- C5: on "sol sablonneux" with the seeded store, the composer's soil
tier returns the stored description of the "sablonneux" soil and lists
exactly "Mil, Oignon", verbatim from `get_soil_recommendations`, with
confidence 0.93 and source "knowledge-store (soils)". -/
theorem soil_scenario :
    (compose seedStore "sol sablonneux").1 =
      "🌱 **Sol sablonneux**\n\nSols légers, pauvres en matière organique, se réchauffent vite mais retiennent peu l\x27eau.\n\n✅ Cultures adaptées : Mil, Oignon." ∧
    (compose seedStore "sol sablonneux").2.1 = 0.93 ∧
    (compose seedStore "sol sablonneux").2.2 = "knowledge-store (soils)" ∧
    get_soil_recommendations seedStore (pyLower "sol sablonneux") =
      some (compose seedStore "sol sablonneux").1 ∧
    pyIn "Mil, Oignon" (compose seedStore "sol sablonneux").1 = true :=
  ⟨by decide, rfl, by decide, by decide, by decide⟩

/-- C8: `rechercher_culture_par_nom` returns the found culture record in
all cases; a JSON-list field whose stored text fails to parse is
recovered as the empty list, leaving the rest of the record intact. -/
theorem malformed_json_recovered (jparse : String → Option (List String))
    (db : AgriDB) (nom : String) (c : RawCulture) (s : String)
    (hfind : db.cultures.find? (fun c => pyLower c.nom == pyLower nom) = some c)
    (hs : c.type_sol = some s) (hne : s ≠ "") (hfail : jparse s = none) :
    ∃ r, rechercher_culture_par_nom jparse db nom = some r ∧
      r.nom = c.nom ∧ r.id = c.id ∧ r.description = c.description ∧
      r.type_sol = [] ∧
      r.conditions_climatiques = decodeListField jparse c.conditions_climatiques ∧
      r.conseils_generaux = decodeListField jparse c.conseils_generaux := by
  have hdec : decodeListField jparse c.type_sol = [] := by
    simp [hs, decodeListField, hne, hfail]
  unfold rechercher_culture_par_nom
  rw [hfind]
  exact ⟨_, rfl, rfl, rfl, rfl, hdec, rfl, rfl⟩

/-- A one-culture database whose `type_sol` field holds unparsable
text. -/
def dbMalformed : AgriDB where
  cultures := [⟨1, "Tomate", none, "légume", some "Culture maraîchère.", true, none,
    some "Élevé", some "not a json array", none, none⟩]
  varietes := []
  maladies := []
  culture_maladies := []
  traitements := []
  maladie_traitements := []
  periodes_plantation := []
  engrais := []
  culture_engrais := []
  parasites := []
  culture_parasites := []
  methodes_lutte_parasites := []
  associations_benefiques := []

theorem malformed_json_recovered_app :
    ∃ r, rechercher_culture_par_nom (fun _ => none) dbMalformed "tomate" = some r ∧
      r.nom = "Tomate" ∧ r.id = 1 ∧ r.description = some "Culture maraîchère." ∧
      r.type_sol = [] ∧
      r.conditions_climatiques = decodeListField (fun _ => none) none ∧
      r.conseils_generaux = decodeListField (fun _ => none) none :=
  malformed_json_recovered (fun _ => none) dbMalformed "tomate" _ "not a json array"
    rfl rfl (by decide) rfl

end Chatbot

namespace Chatbot

/-- When no possibility reaches the cutoff, `get_close_matches` returns
nothing. -/
theorem getCloseMatches1_eq_none (sim : String → String → ℚ) (w : String)
    (poss : List String) (cutoff : ℚ) (h : ∀ p ∈ poss, ¬ cutoff ≤ sim w p) :
    getCloseMatches1 sim w poss cutoff = none := by
  unfold getCloseMatches1
  have hf : poss.filter (fun p => decide (cutoff ≤ sim w p)) = [] := by
    rw [List.filter_eq_nil_iff]
    intro a ha
    simpa using h a ha
  rw [hf]

/-- When exactly one possibility reaches the cutoff, `get_close_matches`
returns it. -/
theorem getCloseMatches1_eq_single (sim : String → String → ℚ) (w x : String)
    (poss : List String) (cutoff : ℚ)
    (h : poss.filter (fun p => decide (cutoff ≤ sim w p)) = [x]) :
    getCloseMatches1 sim w poss cutoff = some x := by
  unfold getCloseMatches1
  rw [h]
  rfl

/-- When every possibility reaches the cutoff, `get_close_matches`
reduces to the pair-maximum fold over the whole possibility list. -/
theorem getCloseMatches1_filter_all (sim : String → String → ℚ) (w : String)
    (poss : List String) (cutoff : ℚ) (h : ∀ p ∈ poss, cutoff ≤ sim w p) :
    getCloseMatches1 sim w poss cutoff =
      match poss with
      | [] => none
      | x :: xs =>
        some (xs.foldl (fun acc p =>
          if sim w acc < sim w p ∨ (sim w acc = sim w p ∧ strLtB acc p) then p
          else acc) x) := by
  unfold getCloseMatches1
  have hf : poss.filter (fun p => decide (cutoff ≤ sim w p)) = poss :=
    List.filter_eq_self.mpr (fun a ha => by simpa using h a ha)
  rw [hf]
  cases poss <;> rfl

/-- C9: city extraction is two-pass — for any tokenizer and similarity
measure, an exact token hit in the city list is returned (first such
token); only with no exact hit does the fuzzy cutoff-0.7 pass run over
the whitespace-split words, returning the first word's close city; and
with neither, the extractor returns none. -/
theorem ville_two_pass :
    (∀ (tok : String → List String) (sim : String → String → ℚ) (texte : String)
        (l1 : List String) (t : String) (l2 : List String),
      tok (pyLower texte) = l1 ++ t :: l2 →
      (∀ u ∈ l1, villes_bf.contains u = false) →
      villes_bf.contains t = true →
      extraire_ville tok sim texte = some (pyCapitalize t)) ∧
    (∀ (tok : String → List String) (sim : String → String → ℚ) (texte : String)
        (m1 : List String) (mot : String) (m2 : List String) (v : String),
      (∀ u ∈ tok (pyLower texte), villes_bf.contains u = false) →
      pySplitWs (pyLower texte) = m1 ++ mot :: m2 →
      (∀ w ∈ m1, getCloseMatches1 sim w villes_bf (7/10) = none) →
      getCloseMatches1 sim mot villes_bf (7/10) = some v →
      extraire_ville tok sim texte = some (pyCapitalize v)) ∧
    (∀ (tok : String → List String) (sim : String → String → ℚ) (texte : String),
      (∀ u ∈ tok (pyLower texte), villes_bf.contains u = false) →
      (∀ w ∈ pySplitWs (pyLower texte), getCloseMatches1 sim w villes_bf (7/10) = none) →
      extraire_ville tok sim texte = none) := by
  refine ⟨?_, ?_, ?_⟩
  · intro tok sim texte l1 t l2 hsplit hl1 ht
    have hfind : (tok (pyLower texte)).find? (fun u => villes_bf.contains u) = some t := by
      rw [hsplit]
      exact find_first_in_append _ l1 t l2 hl1 ht
    simp only [extraire_ville]
    rw [hfind]
  · intro tok sim texte m1 mot m2 v hex hsplit hm1 hmot
    have hfind : (tok (pyLower texte)).find? (fun u => villes_bf.contains u) = none :=
      List.find?_eq_none.mpr (fun x hx => by simpa using hex x hx)
    have hfs : (pySplitWs (pyLower texte)).findSome?
        (fun w => getCloseMatches1 sim w villes_bf (7/10)) = some v := by
      rw [hsplit]
      exact findSome_first_in_append _ m1 mot m2 v hm1 hmot
    simp only [extraire_ville]
    rw [hfind, hfs]
  · intro tok sim texte hex hfz
    have hfind : (tok (pyLower texte)).find? (fun u => villes_bf.contains u) = none :=
      List.find?_eq_none.mpr (fun x hx => by simpa using hex x hx)
    have hfs : (pySplitWs (pyLower texte)).findSome?
        (fun w => getCloseMatches1 sim w villes_bf (7/10)) = none :=
      List.findSome?_eq_none_iff.mpr hfz
    simp only [extraire_ville]
    rw [hfind, hfs]

theorem ville_two_pass_app :
    extraire_ville pySplitWs (fun _ _ => (0 : ℚ)) "pluie à ouagadougou" =
      some (pyCapitalize "ouagadougou") ∧
    extraire_ville pySplitWs (fun _ _ => (1 : ℚ)) "bonsoir les amis" =
      some (pyCapitalize "tenkodogo") ∧
    extraire_ville pySplitWs (fun _ _ => (0 : ℚ)) "il pleut demain" = none := by
  refine ⟨?_, ?_, ?_⟩
  · exact ville_two_pass.1 pySplitWs (fun _ _ => (0 : ℚ)) "pluie à ouagadougou"
      ["pluie", "à"] "ouagadougou" [] (by decide) (by decide) (by decide)
  · refine ville_two_pass.2.1 pySplitWs (fun _ _ => (1 : ℚ))
      "bonsoir les amis" [] "bonsoir" ["les", "amis"] "tenkodogo" (by decide) (by decide)
      (fun w hw => absurd hw (List.not_mem_nil w)) ?_
    rw [getCloseMatches1_filter_all (fun _ _ => (1 : ℚ)) "bonsoir" villes_bf (7/10)
      (fun p _ => by norm_num)]
    decide
  · exact ville_two_pass.2.2 pySplitWs (fun _ _ => (0 : ℚ)) "il pleut demain" (by decide)
      (fun w _ => getCloseMatches1_eq_none _ _ _ _ (fun p _ => by norm_num))

/-- C10: crop extraction is raw substring containment with no word
boundaries — any text whose lowercase contains "jamais" (which contains
the alias "mais") yields the crop "maïs"; in general the first table
entry (in declaration order) with an alias occurring in the text is
returned. -/
theorem crop_alias_substring :
    (∀ texte, pyIn "jamais" (pyLower texte) = true → extraire_culture texte = some "maïs") ∧
    (∀ (texte : String) (l1 : List (String × List String)) (e : String × List String)
        (l2 : List (String × List String)),
      culturesAliases = l1 ++ e :: l2 →
      (∀ p ∈ l1, ∀ v ∈ p.2, pyIn v (pyLower texte) = false) →
      (∃ v ∈ e.2, pyIn v (pyLower texte) = true) →
      extraire_culture texte = some e.1) := by
  have partb : ∀ (texte : String) (l1 : List (String × List String))
      (e : String × List String) (l2 : List (String × List String)),
      culturesAliases = l1 ++ e :: l2 →
      (∀ p ∈ l1, ∀ v ∈ p.2, pyIn v (pyLower texte) = false) →
      (∃ v ∈ e.2, pyIn v (pyLower texte) = true) →
      extraire_culture texte = some e.1 := by
    intro texte l1 e l2 hsplit hmiss hhit
    have hp : (fun q : String × List String => q.2.any (fun v => pyIn v (pyLower texte))) e
        = true := by
      rcases hhit with ⟨v, hv, hvin⟩
      simpa [List.any_eq_true] using ⟨v, hv, hvin⟩
    have hnone : ∀ p ∈ l1,
        (fun q : String × List String => q.2.any (fun v => pyIn v (pyLower texte))) p
          = false := by
      intro p hpmem
      simp only [List.any_eq_false]
      intro v hv
      simp [hmiss p hpmem v hv]
    have hfind := find_first_in_append
      (fun q : String × List String => q.2.any (fun v => pyIn v (pyLower texte))) l1 e l2
      hnone hp
    simp only [extraire_culture]
    rw [hsplit, hfind]
    rfl
  refine ⟨?_, partb⟩
  intro texte h
  have hmais : pyIn "mais" (pyLower texte) = true := pyIn_trans (by decide) h
  have := partb texte [] ("maïs", ["mais", "maïs", "maiz"]) (culturesAliases.drop 1) rfl
    (by simp) ⟨"mais", by simp, hmais⟩
  simpa using this

theorem crop_alias_substring_app :
    extraire_culture "il ne pleut jamais ici" = some "maïs" ∧
    extraire_culture "du riz et du mil" = some "mil" := by
  constructor
  · exact crop_alias_substring.1 "il ne pleut jamais ici" (by decide)
  · exact crop_alias_substring.2 "du riz et du mil" [("maïs", ["mais", "maïs", "maiz"])]
      ("mil", ["mil", "millet"]) (culturesAliases.drop 2) rfl (by decide)
      ⟨"mil", by decide, by decide⟩

end Chatbot
